import Mathlib

/-!
Verification of the lead-qualification pipeline in
src/linkedin_post_collector.py against its specification.

The program is a sequential script: scrape an example post, search for
candidate posts, scrape and score each candidate with a language model,
then filter, sort and display the results.  The shallow embedding below
translates each helper function and the top-level pipeline block into
Lean definitions.  External services (HTTP fetches, the search provider,
the language model) are modelled as inputs: an environment supplies the
outcome of every external call, and the definitions reproduce exactly
what the Python code does with those outcomes.
-/

/-- JSON values as returned by the Python json module when parsing model
output.  Numbers are modelled as integers, which covers every score value
the pipeline manipulates. -/
inductive JVal where
  | null : JVal
  | bool (b : Bool) : JVal
  | num (n : Int) : JVal
  | str (s : String) : JVal
  | arr (elems : List JVal) : JVal
  | obj (fields : List (String × JVal)) : JVal

/-- Python dict.get(key, dflt) applied to a parsed JSON value: looks the key
up when the receiver is a dict, falling back to the default; returns none
when the receiver is not a dict, modelling the AttributeError that
dict.get raises on a non-dict value such as a parsed JSON list. -/
def dictGet (j : JVal) (key : String) (dflt : JVal) : Option JVal :=
  match j with
  | .obj fields =>
      match fields.lookup key with
      | some v => some v
      | none => some dflt
  | _ => none

/-- The degraded scorer result built by the except branch on line 105:
relevance_score 0, reason AI error, empty key_match. -/
def degradedResult : JVal :=
  .obj [("relevance_score", .num 0), ("reason", .str "AI error"), ("key_match", .str "")]

/-- Outcome of the body of the try block of ai_relevance_score, up to and
including the JSON parse: error () when generate_content or anything before
the parse raises, ok none when the fence-stripped response text is rejected
by json.loads, and ok (some j) when it parses to the JSON value j. -/
abbrev GenAttempt := Except Unit (Option JVal)

/-- Lines 100 to 105 of linkedin_post_collector.py: any exception inside the
try block (model call, response access, JSON parse) yields the degraded
dict, while a successful json.loads returns the parsed value to the caller
without any schema validation. -/
def ai_relevance_score (attempt : GenAttempt) : JVal :=
  match attempt with
  | .ok (some j) => j
  | _ => degradedResult

/-- A successfully fetched and HTML-parsed page, as seen by the extractor:
the content attribute of the og:description meta tag when the tag and the
attribute are present, and the list of visible text nodes (each stripped of
surrounding whitespace, whitespace-only nodes dropped) that
get_text(separator, strip=True) joins. -/
structure Page where
  ogDescription : Option String
  textNodes : List String

/-- Python character slice s[:3000], bounding the fallback text length. -/
def truncate3000 (s : String) : String := ⟨s.data.take 3000⟩

/-- Lines 24 to 39: scrape_post_text.  The fetch-and-parse outcome is the
input: error () when requests.get or the parse raises (the bare except
returns the empty string), ok page otherwise.  The og:description content is
returned when present and non-empty, else the joined visible text truncated
to 3000 characters. -/
def scrape_post_text (fetch : Except Unit Page) : String :=
  match fetch with
  | .error _ => ""
  | .ok page =>
      match page.ogDescription with
      | some c => if c = "" then truncate3000 (String.intercalate " " page.textNodes) else c
      | none => truncate3000 (String.intercalate " " page.textNodes)

/-- Boolean test that the second character list starts with pat. -/
def charLead : List Char → List Char → Bool
  | [], _ => true
  | _ :: _, [] => false
  | a :: as, b :: bs => a == b && charLead as bs

/-- Boolean test that pat occurs as a contiguous run in the character list. -/
def charSub (pat : List Char) : List Char → Bool
  | [] => pat.isEmpty
  | c :: rest => charLead pat (c :: rest) || charSub pat rest

/-- The Python substring test (pat in s) on strings. -/
def strContains (s pat : String) : Bool := charSub pat.data s.data

/-- One entry of the organic_results list of the search provider response;
every field is optional because the code reads each with item.get. -/
structure SerpItem where
  link : Option String
  title : Option String
  snippet : Option String
  date : Option String

/-- The parsed JSON body of the search provider response; organic_results
is optional because the code reads it with data.get. -/
structure SerpData where
  organic_results : Option (List SerpItem)

/-- The HTTP response of the search call as seen by search_linkedin_posts:
either a body that r.json() rejects, or a parsed JSON body together with
the HTTP status code.  The status field records what the response carried;
the code never inspects it. -/
inductive SerpResponse where
  | nonJson : SerpResponse
  | jsonBody (status : Nat) (data : SerpData) : SerpResponse

/-- A candidate post record as built on lines 60 to 65. -/
structure SearchHit where
  url : String
  title : String
  snippet : String
  date : String

/-- Lines 57 to 65: map one organic result to a candidate record, keeping
it only when its link contains linkedin.com. -/
def hitOfItem (item : SerpItem) : Option SearchHit :=
  let link := item.link.getD ""
  if strContains link "linkedin.com" then
    some { url := link, title := item.title.getD "", snippet := item.snippet.getD "",
           date := item.date.getD "" }
  else none

/-- Lines 42 to 66: search_linkedin_posts.  The HTTP outcome is the input:
error () when requests.get raises.  The function has no try block, so an
exception from the request or from r.json() propagates to the caller
(result error ()); a parsed JSON body yields the filtered list of
linkedin.com hits, with missing organic_results read as the empty list. -/
def search_linkedin_posts (resp : Except Unit SerpResponse) : Except Unit (List SearchHit) :=
  match resp with
  | .error _ => .error ()
  | .ok .nonJson => .error ()
  | .ok (.jsonBody _ data) =>
      .ok ((data.organic_results.getD []).filterMap hitOfItem)

/-- A scored candidate as mutated by lines 176 to 178: the search fields
plus the three values attached from the scorer result.  The attached values
are stored as parsed JSON values because dict.get returns whatever the
model response carried. -/
structure Candidate where
  url : String
  title : String
  snippet : String
  date : String
  ai_score : JVal
  reason : JVal
  key_match : JVal

/-- Lines 176 to 178: attach the three scorer fields to a candidate with
dict.get and per-key defaults 0, empty string, empty string.  Returns none
when the scorer result is not a dict, modelling the AttributeError that
would crash the run there. -/
def attach_result (post : SearchHit) (ai_result : JVal) : Option Candidate :=
  match dictGet ai_result "relevance_score" (.num 0),
        dictGet ai_result "reason" (.str ""),
        dictGet ai_result "key_match" (.str "") with
  | some sc, some rs, some km =>
      some { url := post.url, title := post.title, snippet := post.snippet, date := post.date,
             ai_score := sc, reason := rs, key_match := km }
  | _, _, _ => none

/-- The Python comparison (v >= t) between an attached score value and an
integer threshold: defined for numbers, and for booleans via their integer
values; none models the TypeError raised for any other value. -/
def pyGeInt (v : JVal) (t : Int) : Option Bool :=
  match v with
  | .num n => some (decide (t ≤ n))
  | .bool b => some (decide (t ≤ (if b then (1 : Int) else 0)))
  | _ => none

/-- A Python list comprehension filtering candidates by score threshold,
crashing (none) at the first candidate whose score does not compare. -/
def filterGe (t : Int) : List Candidate → Option (List Candidate)
  | [] => some []
  | p :: ps =>
      match pyGeInt p.ai_score t with
      | none => none
      | some b => (filterGe t ps).map (fun rest => if b then p :: rest else rest)

/-- Line 188: the qualified subset of the scored list at the configured
threshold. -/
def qualified_posts (scored : List Candidate) (t : Int) : Option (List Candidate) :=
  filterGe t scored

/-- Line 189: the high-intent subset of the scored list at the fixed bar 80;
the definition takes no threshold argument. -/
def high_intent (scored : List Candidate) : Option (List Candidate) :=
  filterGe 80 scored

/-- The integer sort key used on line 214: the numeric value of the stored
score (booleans via their integer values; other values would raise in the
Python comparison and are given a dummy key here, excluded by the numeric
hypotheses of the theorems below). -/
def scoreOf (p : Candidate) : Int :=
  match p.ai_score with
  | .num n => n
  | .bool b => if b then 1 else 0
  | _ => 0

/-- Insert a candidate into a descending-sorted accumulator after every
element of greater or equal score, so that earlier-discovered candidates
stay ahead on ties. -/
def insertDesc (acc : List Candidate) (p : Candidate) : List Candidate :=
  match acc with
  | [] => [p]
  | q :: qs => if scoreOf p ≤ scoreOf q then q :: insertDesc qs p else p :: q :: qs

/-- Line 214: sorted(qualified_posts, key score, reverse=True).  Python
sorted is a stable sort, and with reverse=True ties still keep their
original order; this insertion sort realises the same contract. -/
def sortQualifiedDesc (l : List Candidate) : List Candidate :=
  l.foldl insertDesc []

/-- Lines 224 to 225: the CSV export rows come from the qualified_posts
list in its own order; the sorted list built for display on line 214 is not
reused here. -/
def export_rows (qualified : List Candidate) : List Candidate := qualified

/-- The run configuration read from the input widgets; every credential or
text field is a string, empty when the user left it blank. -/
structure Config where
  serpapi_key : String
  gemini_key : String
  ai_threshold : Int
  max_results : Nat
  example_url : String
  target_phrase : String
  model : String

/-- The outcomes of all external calls a run can make: the fetch of the
example URL, the search response, the fetch of the i-th candidate URL, and
the i-th scorer attempt. -/
structure Env where
  exampleFetch : Except Unit Page
  searchResp : Except Unit SerpResponse
  candidateFetch : Nat → Except Unit Page
  scorerResp : Nat → GenAttempt

/-- One network call made by the pipeline, recorded in order; score calls
record the candidate text sent to the scorer. -/
inductive NetCall where
  | scrape (url : String)
  | search : NetCall
  | score (content : String)

/-- Line 147: the truthiness test rejecting a run when any of the four
required fields is empty. -/
def requiredMissing (cfg : Config) : Bool :=
  cfg.serpapi_key == "" || cfg.gemini_key == "" || cfg.example_url == "" ||
    cfg.target_phrase == ""

/-- Line 166: the text sent to the scorer for the i-th candidate: its
scraped text when non-empty, else its title and snippet joined by one
space. -/
def content_for (env : Env) (i : Nat) (post : SearchHit) : String :=
  let full_text := scrape_post_text (env.candidateFetch i)
  if full_text = "" then post.title ++ " " ++ post.snippet else full_text

/-- What one run of the scoring loop (lines 164 to 183) produces: the
scored candidates (or error () when attaching crashed), the network calls
made, and the progress percentages reported. -/
structure LoopOut where
  result : Except Unit (List Candidate)
  calls : List NetCall
  progress : List Nat

/-- Lines 164 to 183: the scoring loop over the candidates, starting at
index i with n the total candidate count.  Each iteration scrapes the
candidate, chooses the scoring input, calls the scorer, attaches the three
result fields, and reports progress 40 + (i+1)*40/n (integer model of
int((i+1)/len(raw_posts)*40); the division only ever runs inside an
iteration).  A non-dict scorer result stops the loop with an error before
that iteration reports progress. -/
def scoreLoop (env : Env) (n : Nat) : Nat → List SearchHit → LoopOut
  | _, [] => { result := .ok [], calls := [], progress := [] }
  | i, post :: rest =>
      let content := content_for env i post
      let ai_result := ai_relevance_score (env.scorerResp i)
      let calls : List NetCall := [.scrape post.url, .score content]
      match attach_result post ai_result with
      | some cand =>
          let r := scoreLoop env n (i+1) rest
          { result := r.result.map (fun cs => cand :: cs),
            calls := calls ++ r.calls,
            progress := (40 + (i+1) * 40 / n) :: r.progress }
      | none => { result := .error (), calls := calls, progress := [] }

/-- The summary values computed by a completed run: found count and the
scored, qualified and high-intent lists. -/
structure RunResults where
  found : Nat
  scored : List Candidate
  qualified : List Candidate
  high_intent : List Candidate

/-- How a run ends: rejected by validation (st.stop on line 149), halted by
an exception from the search call, crashed by a type error while attaching
or filtering scores, or completed with results. -/
inductive RunOutcome where
  | validationError : RunOutcome
  | searchError : RunOutcome
  | crashed : RunOutcome
  | done (res : RunResults) : RunOutcome

/-- A whole run: its outcome, the network calls made in order, and the
progress percentages reported by the scoring loop. -/
structure RunTrace where
  outcome : RunOutcome
  calls : List NetCall
  scoring_progress : List Nat

/-- Lines 145 to 189: the pipeline block behind the run button.  Validation
happens before any network call; then the example scrape, the search, the
scoring loop, and the two filters of lines 188 and 189. -/
def run_pipeline (cfg : Config) (env : Env) : RunTrace :=
  if requiredMissing cfg then
    { outcome := .validationError, calls := [], scoring_progress := [] }
  else
    match search_linkedin_posts env.searchResp with
    | .error _ =>
        { outcome := .searchError, calls := [.scrape cfg.example_url, .search],
          scoring_progress := [] }
    | .ok raw_posts =>
        match (scoreLoop env raw_posts.length 0 raw_posts).result with
        | .error _ =>
            { outcome := .crashed,
              calls := NetCall.scrape cfg.example_url :: NetCall.search ::
                (scoreLoop env raw_posts.length 0 raw_posts).calls,
              scoring_progress := (scoreLoop env raw_posts.length 0 raw_posts).progress }
        | .ok scored =>
            match qualified_posts scored cfg.ai_threshold, high_intent scored with
            | some q, some h =>
                { outcome := .done { found := raw_posts.length, scored := scored,
                                     qualified := q, high_intent := h },
                  calls := NetCall.scrape cfg.example_url :: NetCall.search ::
                    (scoreLoop env raw_posts.length 0 raw_posts).calls,
                  scoring_progress := (scoreLoop env raw_posts.length 0 raw_posts).progress }
            | _, _ =>
                { outcome := .crashed,
                  calls := NetCall.scrape cfg.example_url :: NetCall.search ::
                    (scoreLoop env raw_posts.length 0 raw_posts).calls,
                  scoring_progress := (scoreLoop env raw_posts.length 0 raw_posts).progress }

/-- The candidate texts sent to the scorer, read off a call trace in
order. -/
def scoreCalls (calls : List NetCall) : List String :=
  calls.filterMap (fun c => match c with | .score s => some s | _ => none)

/-- The scoring inputs the orchestrator is specified to produce: one per
candidate in search-result order, each the scraped text when non-empty and
otherwise the title and snippet of the candidate. -/
def expected_contents (env : Env) : Nat → List SearchHit → List String
  | _, [] => []
  | i, post :: rest => content_for env i post :: expected_contents env (i+1) rest

/-- Every attached score in the list is a JSON number. -/
def AllNumScores (l : List Candidate) : Prop :=
  ∀ p ∈ l, ∃ n, p.ai_score = JVal.num n

/-- The scores are pairwise non-increasing along the list. -/
def SortedDescBy (l : List Candidate) : Prop :=
  l.Pairwise (fun a b => scoreOf b ≤ scoreOf a)

/-- The scorer attempt, when it parses at all, parses to a JSON dict, so
that the attach step of lines 176 to 178 cannot crash. -/
def DictResult (a : GenAttempt) : Prop :=
  ∀ j, a = Except.ok (some j) → ∃ fields, j = JVal.obj fields

/-- The scorer attempt, when it parses at all, parses to a JSON dict whose
relevance_score entry, when present, is an integer in [0,100]. -/
def GoodScore (a : GenAttempt) : Prop :=
  ∀ j, a = Except.ok (some j) → ∃ fields, j = JVal.obj fields ∧
    ∀ v, fields.lookup "relevance_score" = some v →
      ∃ n, v = JVal.num n ∧ 0 ≤ n ∧ n ≤ 100

/-- Concrete fixtures used to evaluate the development on closed inputs. -/
def cfgDemo : Config :=
  { serpapi_key := "sk-demo", gemini_key := "gk-demo", ai_threshold := 45, max_results := 30,
    example_url := "https://www.linkedin.com/posts/example",
    target_phrase := "CRM integration", model := "models/gemini-1.5-flash-latest" }

/-- A configuration whose LLM credential was left blank. -/
def cfgMissing : Config :=
  { serpapi_key := "sk-demo", gemini_key := "", ai_threshold := 45, max_results := 30,
    example_url := "https://www.linkedin.com/posts/example",
    target_phrase := "CRM integration", model := "models/gemini-1.5-flash-latest" }

/-- An environment in which every external call fails. -/
def envDead : Env :=
  { exampleFetch := Except.error (), searchResp := Except.error (),
    candidateFetch := fun _ => Except.error (), scorerResp := fun _ => Except.error () }

/-- An organic search result pointing at a linkedin.com post. -/
def itemA : SerpItem :=
  { link := some "https://www.linkedin.com/posts/a", title := some "Title A",
    snippet := some "Snippet A", date := some "" }

/-- A second organic search result pointing at a linkedin.com post. -/
def itemB : SerpItem :=
  { link := some "https://www.linkedin.com/posts/b", title := some "Title B",
    snippet := some "Snippet B", date := some "" }

/-- The candidate record produced from itemA. -/
def hitA : SearchHit :=
  { url := "https://www.linkedin.com/posts/a", title := "Title A", snippet := "Snippet A",
    date := "" }

/-- The candidate record produced from itemB. -/
def hitB : SearchHit :=
  { url := "https://www.linkedin.com/posts/b", title := "Title B", snippet := "Snippet B",
    date := "" }

/-- A well-formed scorer response dict carrying the given score. -/
def scorerJson (c : Int) : JVal :=
  JVal.obj [("relevance_score", JVal.num c), ("reason", JVal.str "fits the theme"),
            ("key_match", JVal.str "asking for vendor")]

/-- An environment with two candidates whose scrapes fail and whose scorer
responses carry scores 50 and 90 in discovery order. -/
def envTwo : Env :=
  { exampleFetch := Except.error (),
    searchResp := Except.ok (SerpResponse.jsonBody 200 { organic_results := some [itemA, itemB] }),
    candidateFetch := fun _ => Except.error (),
    scorerResp := fun i => Except.ok (some (scorerJson (if i = 0 then 50 else 90))) }

/-- An environment with one candidate whose scorer response carries the
out-of-range score 150. -/
def envBig : Env :=
  { exampleFetch := Except.error (),
    searchResp := Except.ok (SerpResponse.jsonBody 200 { organic_results := some [itemA] }),
    candidateFetch := fun _ => Except.error (),
    scorerResp := fun _ => Except.ok (some (scorerJson 150)) }

/-- An environment whose search succeeds with zero organic results. -/
def envNone : Env :=
  { exampleFetch := Except.error (),
    searchResp := Except.ok (SerpResponse.jsonBody 200 { organic_results := some [] }),
    candidateFetch := fun _ => Except.error (), scorerResp := fun _ => Except.error () }

/-- The scored candidate built from itemA with score 50 in envTwo. -/
def candA50 : Candidate :=
  { url := "https://www.linkedin.com/posts/a", title := "Title A", snippet := "Snippet A",
    date := "", ai_score := JVal.num 50, reason := JVal.str "fits the theme",
    key_match := JVal.str "asking for vendor" }

/-- The scored candidate built from itemB with score 90 in envTwo. -/
def candB90 : Candidate :=
  { url := "https://www.linkedin.com/posts/b", title := "Title B", snippet := "Snippet B",
    date := "", ai_score := JVal.num 90, reason := JVal.str "fits the theme",
    key_match := JVal.str "asking for vendor" }

/-- The scored candidate built from itemA with score 150 in envBig. -/
def candA150 : Candidate :=
  { url := "https://www.linkedin.com/posts/a", title := "Title A", snippet := "Snippet A",
    date := "", ai_score := JVal.num 150, reason := JVal.str "fits the theme",
    key_match := JVal.str "asking for vendor" }

/-- The results of the completed run of cfgDemo in envTwo. -/
def resTwo : RunResults :=
  { found := 2, scored := [candA50, candB90], qualified := [candA50, candB90],
    high_intent := [candB90] }

/-- A page carrying an og:description tag with non-empty content. -/
def pageOg : Page :=
  { ogDescription := some "Looking for a CRM integration partner", textNodes := ["body", "text"] }

/-- A fixture candidate record used to evaluate the attach step. -/
def hitDemo : SearchHit :=
  { url := "https://www.linkedin.com/posts/demo", title := "Demo title",
    snippet := "Demo snippet", date := "" }

/-- Claim C2, counterexample: a model response that parses as valid JSON
but is schema-invalid (here a JSON array) is returned by
ai_relevance_score as-is, not mapped to the degraded result as the claim
states for schema-invalid response text. -/
theorem C2_counterexample :
    ai_relevance_score (Except.ok (some (JVal.arr []))) = JVal.arr [] ∧
      JVal.arr [] ≠ degradedResult :=
  ⟨rfl, by simp [degradedResult]⟩

/-- Claim C2 (amended): when the model call raises, or the response text is
rejected by json.loads, ai_relevance_score returns exactly the degraded
result with relevance_score 0, reason AI error and empty key_match, and
nothing propagates to the caller; a response that parses as any JSON value
is returned as-is, with no schema validation. -/
theorem C2_degraded_on_failure (a : GenAttempt) :
    ((a = Except.error () ∨ a = Except.ok none) → ai_relevance_score a = degradedResult) ∧
      (∀ j, a = Except.ok (some j) → ai_relevance_score a = j) := by
  constructor
  · rintro (rfl | rfl) <;> rfl
  · rintro j rfl; rfl

/-- Witness for C2_degraded_on_failure at a failed model call. -/
theorem C2_degraded_on_failure_witness :
    ai_relevance_score (Except.error ()) = degradedResult :=
  (C2_degraded_on_failure (Except.error ())).1 (Or.inl rfl)

/-- Claim C3: the text extractor is total over every fetch outcome (it
never raises): a failed fetch or parse yields the empty string; a page
whose og:description is present and non-empty yields exactly that content;
otherwise the visible text nodes joined with single spaces and truncated
to 3000 characters, which is never longer than 3000 characters and is
empty when the page has no text nodes. -/
theorem C3_scrape_contract (f : Except Unit Page) :
    (f = Except.error () → scrape_post_text f = "") ∧
      (∀ page, f = Except.ok page →
        ((∀ c, page.ogDescription = some c → c ≠ "" → scrape_post_text f = c) ∧
          ((page.ogDescription = none ∨ page.ogDescription = some "") →
            scrape_post_text f = truncate3000 (String.intercalate " " page.textNodes) ∧
              (scrape_post_text f).length ≤ 3000) ∧
          ((page.ogDescription = none ∨ page.ogDescription = some "") →
            page.textNodes = [] → scrape_post_text f = ""))) := by
  refine ⟨?_, ?_⟩
  · rintro rfl; rfl
  · rintro page rfl
    refine ⟨?_, ?_, ?_⟩
    · rintro c hc hne
      simp [scrape_post_text, hc, hne]
    · rintro (hog | hog) <;>
        · refine ⟨by simp [scrape_post_text, hog], ?_⟩
          simp only [scrape_post_text, hog]
          exact List.length_take_le _ _
    · rintro (hog | hog) hnodes <;> simp only [scrape_post_text, hog, hnodes] <;> rfl

/-- Witness for C3_scrape_contract on a page with a non-empty
og:description. -/
theorem C3_scrape_contract_witness :
    scrape_post_text (Except.ok pageOg) = "Looking for a CRM integration partner" :=
  (((C3_scrape_contract (Except.ok pageOg)).2 pageOg rfl).1
    "Looking for a CRM integration partner" rfl (by decide))

/-- Claim C6, counterexample: a provider failure delivered as an HTTP 401
response whose JSON error body carries no organic_results is mapped by
search_linkedin_posts to ok [] — an empty hit list indistinguishable from
a successful search with zero hits — rather than surfaced as an error; the
function never inspects the status code. -/
theorem C6_counterexample :
    search_linkedin_posts
        (Except.ok (SerpResponse.jsonBody 401 { organic_results := none })) =
      Except.ok ([] : List SearchHit) := rfl

/-- Claim C6 (amended): an exception from the HTTP request and a response
body rejected by r.json() both propagate to the caller of
search_linkedin_posts, halting the run; any response that parses as JSON
yields a hit list, whatever its status code, and every hit in that list
has a linkedin.com link. -/
theorem C6_error_propagation (resp : Except Unit SerpResponse) :
    (resp = Except.error () → search_linkedin_posts resp = Except.error ()) ∧
      (resp = Except.ok SerpResponse.nonJson → search_linkedin_posts resp = Except.error ()) ∧
      (∀ status data, resp = Except.ok (SerpResponse.jsonBody status data) →
        ∃ hits, search_linkedin_posts resp = Except.ok hits ∧
          ∀ h ∈ hits, strContains h.url "linkedin.com" = true) := by
  refine ⟨?_, ?_, ?_⟩
  · rintro rfl; rfl
  · rintro rfl; rfl
  · rintro status data rfl
    refine ⟨_, rfl, ?_⟩
    intro h hmem
    simp only [List.mem_filterMap] at hmem
    obtain ⟨item, -, hitem⟩ := hmem
    by_cases hc : strContains (item.link.getD "") "linkedin.com" = true
    · simp only [hitOfItem, hc, if_true] at hitem
      obtain rfl := Option.some.inj hitem
      exact hc
    · simp [hitOfItem, hc] at hitem

/-- Witness for C6_error_propagation at a raised request exception. -/
theorem C6_error_propagation_witness :
    search_linkedin_posts (Except.error ()) = Except.error () :=
  (C6_error_propagation (Except.error ())).1 rfl

/-- Claim C7: when any of the four required inputs is empty, the run ends
in the validation error with an empty call trace: no scrape, search or
scoring call is ever made. -/
theorem C7_validation_rejects (cfg : Config) (env : Env)
    (h : cfg.serpapi_key = "" ∨ cfg.gemini_key = "" ∨ cfg.example_url = "" ∨
      cfg.target_phrase = "") :
    (run_pipeline cfg env).outcome = RunOutcome.validationError ∧
      (run_pipeline cfg env).calls = [] := by
  have hmiss : requiredMissing cfg = true := by
    rcases h with h | h | h | h <;> simp [requiredMissing, h]
  simp [run_pipeline, hmiss]

/-- Witness for C7_validation_rejects with a blank LLM credential. -/
theorem C7_validation_rejects_witness :
    (run_pipeline cfgMissing envDead).outcome = RunOutcome.validationError ∧
      (run_pipeline cfgMissing envDead).calls = [] :=
  C7_validation_rejects cfgMissing envDead (Or.inr (Or.inl rfl))

/-- Claim C10: a scorer response that parses as a JSON object lacking the
expected keys takes no error branch — ai_relevance_score returns the
object itself, not the degraded result — and the attach step fills the
per-key defaults: score 0, reason the empty string (not the AI error
marker), empty key_match. -/
theorem C10_missing_keys_defaults (post : SearchHit) (fields : List (String × JVal))
    (h1 : fields.lookup "relevance_score" = none)
    (h2 : fields.lookup "reason" = none)
    (h3 : fields.lookup "key_match" = none) :
    ai_relevance_score (Except.ok (some (JVal.obj fields))) = JVal.obj fields ∧
      attach_result post (ai_relevance_score (Except.ok (some (JVal.obj fields)))) =
        some { url := post.url, title := post.title, snippet := post.snippet, date := post.date,
               ai_score := JVal.num 0, reason := JVal.str "", key_match := JVal.str "" } ∧
      JVal.str "" ≠ JVal.str "AI error" := by
  refine ⟨rfl, ?_, by simp⟩
  simp [ai_relevance_score, attach_result, dictGet, h1, h2, h3]

/-- Witness for C10_missing_keys_defaults at the empty JSON object. -/
theorem C10_missing_keys_defaults_witness :
    ai_relevance_score (Except.ok (some (JVal.obj []))) = JVal.obj [] ∧
      attach_result hitDemo (ai_relevance_score (Except.ok (some (JVal.obj [])))) =
        some { url := hitDemo.url, title := hitDemo.title, snippet := hitDemo.snippet,
               date := hitDemo.date, ai_score := JVal.num 0, reason := JVal.str "",
               key_match := JVal.str "" } ∧
      JVal.str "" ≠ JVal.str "AI error" :=
  C10_missing_keys_defaults hitDemo [] rfl rfl rfl

/-- On a list of numeric scores the comprehension of line 188 never
crashes and computes the plain filter by the integer score. -/
theorem filterGe_eq_filter (t : Int) (l : List Candidate) (h : AllNumScores l) :
    filterGe t l = some (l.filter (fun p => decide (t ≤ scoreOf p))) := by
  induction l with
  | nil => rfl
  | cons p ps ih =>
      obtain ⟨n, hn⟩ := h p (List.mem_cons_self p ps)
      have hps : AllNumScores ps := fun q hq => h q (List.mem_cons_of_mem p hq)
      have hsc : scoreOf p = n := by simp [scoreOf, hn]
      simp [filterGe, pyGeInt, hn, ih hps, List.filter_cons, hsc]

/-- Claim C4: over a scored list with numeric scores, the qualified set of
line 188 is exactly the candidates whose score is at least the configured
threshold, the high-intent set of line 189 exactly those with score at
least the fixed bar 80 — a bound that does not depend on the threshold —
and whenever the threshold is at most 80 every high-intent candidate is
qualified. -/
theorem C4_sets_characterisation (scored : List Candidate) (t : Int)
    (hnum : AllNumScores scored) :
    ∃ q h, qualified_posts scored t = some q ∧ high_intent scored = some h ∧
      (∀ p, p ∈ q ↔ p ∈ scored ∧ t ≤ scoreOf p) ∧
      (∀ p, p ∈ h ↔ p ∈ scored ∧ 80 ≤ scoreOf p) ∧
      (t ≤ 80 → ∀ p ∈ h, p ∈ q) := by
  refine ⟨_, _, filterGe_eq_filter t scored hnum, filterGe_eq_filter 80 scored hnum,
    ?_, ?_, ?_⟩
  · intro p; simp [List.mem_filter]
  · intro p; simp [List.mem_filter]
  · intro ht p hp
    simp only [List.mem_filter, decide_eq_true_eq] at hp ⊢
    exact ⟨hp.1, le_trans ht hp.2⟩

/-- Witness for C4_sets_characterisation on two scored candidates and the
default threshold. -/
theorem C4_sets_characterisation_witness :
    ∃ q h, qualified_posts [candA50, candB90] 45 = some q ∧
      high_intent [candA50, candB90] = some h ∧
      (∀ p, p ∈ q ↔ p ∈ [candA50, candB90] ∧ 45 ≤ scoreOf p) ∧
      (∀ p, p ∈ h ↔ p ∈ [candA50, candB90] ∧ 80 ≤ scoreOf p) ∧
      ((45 : Int) ≤ 80 → ∀ p ∈ h, p ∈ q) :=
  C4_sets_characterisation [candA50, candB90] 45 (by
    intro p hp
    rcases List.mem_cons.mp hp with rfl | hp'
    · exact ⟨50, rfl⟩
    · rcases List.mem_cons.mp hp' with rfl | hp''
      · exact ⟨90, rfl⟩
      · cases hp'')

/-- Inserting into the sorted accumulator permutes the inserted element
onto it. -/
theorem insertDesc_perm (acc : List Candidate) (p : Candidate) :
    (insertDesc acc p).Perm (p :: acc) := by
  induction acc with
  | nil => exact List.Perm.refl _
  | cons q qs ih =>
      simp only [insertDesc]
      split
      · exact (List.Perm.cons q ih).trans (List.Perm.swap p q qs)
      · exact List.Perm.refl _

/-- Inserting into a descending-sorted accumulator keeps it sorted. -/
theorem insertDesc_sorted (acc : List Candidate) (p : Candidate) (h : SortedDescBy acc) :
    SortedDescBy (insertDesc acc p) := by
  induction acc with
  | nil => simp [insertDesc, SortedDescBy]
  | cons q qs ih =>
      obtain ⟨hq, hqs⟩ := List.pairwise_cons.mp h
      simp only [insertDesc]
      split
      · next hle =>
          refine List.pairwise_cons.mpr ⟨?_, ih hqs⟩
          intro b hb
          rcases List.mem_cons.mp ((insertDesc_perm qs p).subset hb) with rfl | hb'
          · exact hle
          · exact hq b hb'
      · next hgt =>
          have hlt : scoreOf q < scoreOf p := lt_of_not_le hgt
          refine List.pairwise_cons.mpr ⟨?_, h⟩
          intro b hb
          rcases List.mem_cons.mp hb with rfl | hb'
          · exact le_of_lt hlt
          · exact le_trans (hq b hb') (le_of_lt hlt)

/-- Inserting into a descending-sorted accumulator appends the new element
to the run of its own score value: the filter at any score keeps its order
and gains at most the new element at the end. -/
theorem insertDesc_filter (acc : List Candidate) (p : Candidate) (h : SortedDescBy acc)
    (s : Int) :
    (insertDesc acc p).filter (fun q => decide (scoreOf q = s)) =
      acc.filter (fun q => decide (scoreOf q = s)) ++
        if scoreOf p = s then [p] else [] := by
  induction acc with
  | nil =>
      simp only [insertDesc, List.filter_cons, List.filter_nil, List.nil_append]
      by_cases hp : scoreOf p = s <;> simp [hp]
  | cons q qs ih =>
      obtain ⟨hq, hqs⟩ := List.pairwise_cons.mp h
      simp only [insertDesc]
      split
      · next hle =>
          simp only [List.filter_cons, ih hqs]
          by_cases hqe : scoreOf q = s <;> simp [hqe]
      · next hgt =>
          have hlt : scoreOf q < scoreOf p := lt_of_not_le hgt
          by_cases hp : scoreOf p = s
          · have hnone : (q :: qs).filter (fun b => decide (scoreOf b = s)) = [] := by
              rw [List.filter_eq_nil_iff]
              intro b hb
              rcases List.mem_cons.mp hb with rfl | hb'
              · simp only [decide_eq_true_eq]
                intro he
                omega
              · have hb2 := hq b hb'
                simp only [decide_eq_true_eq]
                intro he
                omega
            simp [List.filter_cons, hp, hnone]
          · simp only [List.filter_cons, hp]
            simp [hp]

/-- The insertion fold of the display sort permutes its input onto the
accumulator. -/
theorem foldl_insertDesc_perm (l acc : List Candidate) :
    (l.foldl insertDesc acc).Perm (acc ++ l) := by
  induction l generalizing acc with
  | nil => simp
  | cons p ps ih =>
      refine (ih (insertDesc acc p)).trans ?_
      refine (List.Perm.append_right ps (insertDesc_perm acc p)).trans ?_
      exact List.perm_middle.symm

/-- The insertion fold of the display sort yields a descending-sorted
list. -/
theorem foldl_insertDesc_sorted (l acc : List Candidate) (h : SortedDescBy acc) :
    SortedDescBy (l.foldl insertDesc acc) := by
  induction l generalizing acc with
  | nil => exact h
  | cons p ps ih => exact ih _ (insertDesc_sorted acc p h)

/-- The insertion fold of the display sort is stable: at every score value
the filtered subsequence is the filtered accumulator followed by the
filtered input in input order. -/
theorem foldl_insertDesc_filter (l acc : List Candidate) (h : SortedDescBy acc) (s : Int) :
    (l.foldl insertDesc acc).filter (fun q => decide (scoreOf q = s)) =
      acc.filter (fun q => decide (scoreOf q = s)) ++
        l.filter (fun q => decide (scoreOf q = s)) := by
  induction l generalizing acc with
  | nil => simp
  | cons p ps ih =>
      rw [List.foldl_cons, ih _ (insertDesc_sorted acc p h),
        insertDesc_filter acc p h s, List.filter_cons]
      by_cases hp : scoreOf p = s <;> simp [hp]

/-- Claim C5, counterexample: a completed run whose qualified list holds a
lower-scored candidate before a higher-scored one exports its CSV rows
(line 224) in that discovery order — the export is built from the unsorted
qualified list, so the exported qualified list is not sorted descending by
score; only the display loop of line 214 sorts. -/
theorem C5_counterexample :
    ∃ res, (run_pipeline cfgDemo envTwo).outcome = RunOutcome.done res ∧
      export_rows res.qualified = [candA50, candB90] ∧
      scoreOf candA50 < scoreOf candB90 :=
  ⟨resTwo, rfl, rfl, by decide⟩

/-- Claim C5 (amended): the qualified list as displayed by line 214 is a
permutation of the qualified list that is sorted with scores
non-increasing and stable — at every score value the displayed candidates
with that score are exactly the qualified ones in their original discovery
order; the CSV export of line 224, by contrast, keeps the unsorted
qualified list order. -/
theorem C5_display_sort_stable (qualified : List Candidate) (_hnum : AllNumScores qualified) :
    (sortQualifiedDesc qualified).Perm qualified ∧
      SortedDescBy (sortQualifiedDesc qualified) ∧
      (∀ s : Int, (sortQualifiedDesc qualified).filter (fun q => decide (scoreOf q = s)) =
        qualified.filter (fun q => decide (scoreOf q = s))) ∧
      export_rows qualified = qualified := by
  refine ⟨?_, ?_, ?_, rfl⟩
  · simpa using foldl_insertDesc_perm qualified []
  · exact foldl_insertDesc_sorted qualified [] List.Pairwise.nil
  · intro s
    simpa using foldl_insertDesc_filter qualified [] List.Pairwise.nil s

/-- Witness for C5_display_sort_stable on the qualified list of the
envTwo run. -/
theorem C5_display_sort_stable_witness :
    (sortQualifiedDesc [candA50, candB90]).Perm [candA50, candB90] ∧
      SortedDescBy (sortQualifiedDesc [candA50, candB90]) ∧
      (∀ s : Int,
        (sortQualifiedDesc [candA50, candB90]).filter (fun q => decide (scoreOf q = s)) =
          [candA50, candB90].filter (fun q => decide (scoreOf q = s))) ∧
      export_rows [candA50, candB90] = [candA50, candB90] :=
  C5_display_sort_stable [candA50, candB90] (by
    intro p hp
    rcases List.mem_cons.mp hp with rfl | hp'
    · exact ⟨50, rfl⟩
    · rcases List.mem_cons.mp hp' with rfl | hp''
      · exact ⟨90, rfl⟩
      · cases hp'')

/-- Claim C8: with a valid configuration, when the search succeeds with an
empty hit list the run completes with found count 0, empty scored,
qualified and high-intent lists, a call trace holding only the example
scrape and the search (the scoring loop ran zero iterations, so no
candidate scrape or score call), and an empty scoring progress list: the
division of the progress formula, which only runs inside an iteration, is
never evaluated. -/
theorem C8_empty_search (cfg : Config) (env : Env)
    (hval : requiredMissing cfg = false)
    (hsearch : search_linkedin_posts env.searchResp = Except.ok []) :
    (run_pipeline cfg env).outcome =
        RunOutcome.done { found := 0, scored := [], qualified := [], high_intent := [] } ∧
      (run_pipeline cfg env).calls = [NetCall.scrape cfg.example_url, NetCall.search] ∧
      (run_pipeline cfg env).scoring_progress = [] := by
  simp [run_pipeline, hval, hsearch, scoreLoop, qualified_posts, high_intent, filterGe]

/-- Witness for C8_empty_search in the zero-result environment. -/
theorem C8_empty_search_witness :
    (run_pipeline cfgDemo envNone).outcome =
        RunOutcome.done { found := 0, scored := [], qualified := [], high_intent := [] } ∧
      (run_pipeline cfgDemo envNone).calls =
        [NetCall.scrape cfgDemo.example_url, NetCall.search] ∧
      (run_pipeline cfgDemo envNone).scoring_progress = [] :=
  C8_empty_search cfgDemo envNone rfl rfl

/-- dict.get on a JSON dict never crashes: it yields the entry when the
key is bound and the default otherwise. -/
theorem dictGet_obj (fields : List (String × JVal)) (k : String) (d : JVal) :
    dictGet (JVal.obj fields) k d = some ((fields.lookup k).getD d) := by
  cases h : fields.lookup k <;> simp [dictGet, h]

/-- Attaching a dict scorer result always succeeds and stores, for each of
the three keys, the bound value or its per-key default. -/
theorem attach_result_obj (post : SearchHit) (fields : List (String × JVal)) :
    attach_result post (JVal.obj fields) =
      some { url := post.url, title := post.title, snippet := post.snippet, date := post.date,
             ai_score := (fields.lookup "relevance_score").getD (JVal.num 0),
             reason := (fields.lookup "reason").getD (JVal.str ""),
             key_match := (fields.lookup "key_match").getD (JVal.str "") } := by
  unfold attach_result
  rw [dictGet_obj, dictGet_obj, dictGet_obj]


/-- When every parsed scorer response is a dict, the attach step never
crashes. -/
theorem attach_always_some (post : SearchHit) (a : GenAttempt) (h : DictResult a) :
    ∃ cand, attach_result post (ai_relevance_score a) = some cand := by
  match a with
  | .error () => exact ⟨_, rfl⟩
  | .ok none => exact ⟨_, rfl⟩
  | .ok (some j) =>
      obtain ⟨fields, rfl⟩ := h j rfl
      exact ⟨_, attach_result_obj post fields⟩

/-- When every parsed scorer response is a dict, the scoring loop returns
a scored candidate list and its trace sends the scorer, in discovery
order, exactly the expected content for each candidate. -/
theorem scoreLoop_trace (env : Env) (n : Nat) (hdict : ∀ i, DictResult (env.scorerResp i)) :
    ∀ hits i, (∃ cands, (scoreLoop env n i hits).result = Except.ok cands) ∧
      scoreCalls (scoreLoop env n i hits).calls = expected_contents env i hits := by
  intro hits
  induction hits with
  | nil => intro i; exact ⟨⟨[], rfl⟩, rfl⟩
  | cons post rest ih =>
      intro i
      obtain ⟨⟨cands, hres⟩, hcalls⟩ := ih (i + 1)
      obtain ⟨cand, hc⟩ := attach_always_some post (env.scorerResp i) (hdict i)
      constructor
      · refine ⟨cand :: cands, ?_⟩
        simp [scoreLoop, hc, hres, Except.map]
      · simp [scoreLoop, hc, scoreCalls, expected_contents, List.filterMap_cons] at hcalls ⊢
        exact hcalls

/-- With a valid configuration and a successful search, the call trace of
the run is the example scrape, the search, then the scoring loop trace. -/
theorem run_calls (cfg : Config) (env : Env) (raw : List SearchHit)
    (hval : requiredMissing cfg = false)
    (hsearch : search_linkedin_posts env.searchResp = Except.ok raw) :
    (run_pipeline cfg env).calls =
      NetCall.scrape cfg.example_url :: NetCall.search ::
        (scoreLoop env raw.length 0 raw).calls := by
  unfold run_pipeline
  rw [hval, hsearch]
  simp only [Bool.false_eq_true, if_false]
  cases hr : (scoreLoop env raw.length 0 raw).result with
  | error e => rfl
  | ok scored =>
      cases hq : qualified_posts scored cfg.ai_threshold <;>
        cases hh : high_intent scored <;> simp [hq, hh]

/-- Claim C9: with a valid configuration, a successful search, and scorer
responses that parse to dicts when they parse at all (other runs crash at
the attach step), the texts sent to the scorer are, in search-result
order, one per candidate: the scraped text of the candidate when it is
non-empty, and otherwise its title and snippet joined by a space — which
is what expected_contents spells out via content_for. -/
theorem C9_scorer_inputs (cfg : Config) (env : Env) (hits : List SearchHit)
    (hval : requiredMissing cfg = false)
    (hsearch : search_linkedin_posts env.searchResp = Except.ok hits)
    (hdict : ∀ i, DictResult (env.scorerResp i)) :
    scoreCalls (run_pipeline cfg env).calls = expected_contents env 0 hits := by
  rw [run_calls cfg env hits hval hsearch]
  obtain ⟨-, hcalls⟩ := scoreLoop_trace env hits.length hdict hits 0
  simpa [scoreCalls, List.filterMap_cons] using hcalls

/-- Witness for C9_scorer_inputs in the two-candidate environment, where
both candidate scrapes fail, so each scoring input falls back to title and
snippet. -/
theorem C9_scorer_inputs_witness :
    scoreCalls (run_pipeline cfgDemo envTwo).calls = expected_contents envTwo 0 [hitA, hitB] :=
  C9_scorer_inputs cfgDemo envTwo [hitA, hitB] rfl rfl (by
    intro i j hj
    simp only [envTwo] at hj
    obtain rfl := (Option.some.inj (Except.ok.inj hj))
    exact ⟨_, rfl⟩)

/-- A run that completes did pass validation, got a hit list from the
search, and its scoring loop produced exactly the scored list of the
results. -/
theorem run_done_inv (cfg : Config) (env : Env) (res : RunResults)
    (hdone : (run_pipeline cfg env).outcome = RunOutcome.done res) :
    ∃ raw, search_linkedin_posts env.searchResp = Except.ok raw ∧
      (scoreLoop env raw.length 0 raw).result = Except.ok res.scored := by
  unfold run_pipeline at hdone
  by_cases hval : requiredMissing cfg
  · rw [if_pos hval] at hdone
    simp at hdone
  · rw [if_neg hval] at hdone
    cases hs : search_linkedin_posts env.searchResp with
    | error e => rw [hs] at hdone; simp at hdone
    | ok raw =>
        rw [hs] at hdone
        dsimp only at hdone
        refine ⟨raw, rfl, ?_⟩
        cases hr : (scoreLoop env raw.length 0 raw).result with
        | error e => rw [hr] at hdone; simp at hdone
        | ok scored =>
            rw [hr] at hdone
            dsimp only at hdone
            cases hq : qualified_posts scored cfg.ai_threshold with
            | none =>
                rw [hq] at hdone
                cases hh : high_intent scored <;> rw [hh] at hdone <;> simp at hdone
            | some q =>
                rw [hq] at hdone
                cases hh : high_intent scored with
                | none => rw [hh] at hdone; simp at hdone
                | some h =>
                    rw [hh] at hdone
                    simp only [RunOutcome.done.injEq] at hdone
                    rw [← hdone]

/-- Attaching a scorer result whose parsed dict carries an in-range
relevance_score (or none at all, or which failed and was degraded to score
0) yields a candidate whose stored score is an integer in [0,100]. -/
theorem attach_score_range (post : SearchHit) (a : GenAttempt) (hg : GoodScore a)
    (cand : Candidate)
    (ha : attach_result post (ai_relevance_score a) = some cand) :
    ∃ n, cand.ai_score = JVal.num n ∧ 0 ≤ n ∧ n ≤ 100 := by
  match a with
  | .error () =>
      rw [show attach_result post (ai_relevance_score (Except.error ())) =
          some { url := post.url, title := post.title, snippet := post.snippet,
                 date := post.date, ai_score := JVal.num 0, reason := JVal.str "AI error",
                 key_match := JVal.str "" } from rfl] at ha
      obtain rfl := Option.some.inj ha
      exact ⟨0, rfl, le_refl 0, by omega⟩
  | .ok none =>
      rw [show attach_result post (ai_relevance_score (Except.ok (none : Option JVal))) =
          some { url := post.url, title := post.title, snippet := post.snippet,
                 date := post.date, ai_score := JVal.num 0, reason := JVal.str "AI error",
                 key_match := JVal.str "" } from rfl] at ha
      obtain rfl := Option.some.inj ha
      exact ⟨0, rfl, le_refl 0, by omega⟩
  | .ok (some j) =>
      obtain ⟨fields, rfl, hsc⟩ := hg j rfl
      rw [show ai_relevance_score (Except.ok (some (JVal.obj fields))) = JVal.obj fields
          from rfl, attach_result_obj] at ha
      obtain rfl := Option.some.inj ha
      cases hl : fields.lookup "relevance_score" with
      | none => exact ⟨0, by simp [hl], le_refl 0, by omega⟩
      | some v =>
          obtain ⟨n, rfl, h0, h100⟩ := hsc v hl
          exact ⟨n, by simp [hl], h0, h100⟩

/-- When every scorer response is well-behaved, every candidate the
scoring loop returns carries a numeric score in [0,100]. -/
theorem scoreLoop_scores_range (env : Env) (nn : Nat)
    (hgood : ∀ i, GoodScore (env.scorerResp i)) :
    ∀ hits i cands, (scoreLoop env nn i hits).result = Except.ok cands →
      ∀ p ∈ cands, ∃ n, p.ai_score = JVal.num n ∧ 0 ≤ n ∧ n ≤ 100 := by
  intro hits
  induction hits with
  | nil =>
      intro i cands h p hp
      obtain rfl := Except.ok.inj h
      cases hp
  | cons post rest ih =>
      intro i cands h p hp
      simp only [scoreLoop] at h
      cases hc : attach_result post (ai_relevance_score (env.scorerResp i)) with
      | none => rw [hc] at h; simp at h
      | some cand =>
          rw [hc] at h
          cases hr : (scoreLoop env nn (i + 1) rest).result with
          | error e => rw [hr] at h; simp [Except.map] at h
          | ok cs =>
              rw [hr] at h
              simp only [Except.map, Except.ok.injEq] at h
              obtain rfl := h
              rcases List.mem_cons.mp hp with rfl | hp'
              · exact attach_score_range post _ (hgood i) p hc
              · exact ih (i + 1) cs hr p hp'

/-- Claim C1, counterexample: when the parsed model JSON carries
relevance_score 150, the candidate reaches the filtering stage with
ai_score 150, outside [0,100] — the code attaches the parsed value with no
clamping or validation. -/
theorem C1_counterexample :
    ∃ res, (run_pipeline cfgDemo envBig).outcome = RunOutcome.done res ∧
      ∃ p ∈ res.scored, ¬ ∃ n : Int, p.ai_score = JVal.num n ∧ 0 ≤ n ∧ n ≤ 100 := by
  refine ⟨{ found := 1, scored := [candA150], qualified := [candA150],
            high_intent := [candA150] }, rfl, candA150, List.mem_singleton.mpr rfl, ?_⟩
  rintro ⟨n, hn, -, h100⟩
  simp only [candA150] at hn
  injection hn with h
  omega

/-- Claim C1 (amended): every candidate reaching the filtering stage has a
present ai_score — scorer failures and missing keys both map to 0, never
to absence — but the value is the parsed relevance_score unvalidated, so
it is an integer in [0,100] exactly when the scorer responses are
well-behaved: whenever every response that parses is a dict whose
relevance_score entry, when present, is an integer in [0,100], every
scored candidate of a completed run carries a numeric ai_score in
[0,100]. -/
theorem C1_score_range (cfg : Config) (env : Env) (res : RunResults)
    (hgood : ∀ i, GoodScore (env.scorerResp i))
    (hdone : (run_pipeline cfg env).outcome = RunOutcome.done res) :
    ∀ p ∈ res.scored, ∃ n, p.ai_score = JVal.num n ∧ 0 ≤ n ∧ n ≤ 100 := by
  obtain ⟨raw, -, hloop⟩ := run_done_inv cfg env res hdone
  exact scoreLoop_scores_range env raw.length hgood raw 0 res.scored hloop

/-- Witness for C1_score_range applied to the completed envTwo run and its
first scored candidate. -/
theorem C1_score_range_witness :
    ∃ n, candA50.ai_score = JVal.num n ∧ 0 ≤ n ∧ n ≤ 100 :=
  C1_score_range cfgDemo envTwo resTwo
    (by
      intro i j hj
      obtain rfl := Option.some.inj (Except.ok.inj hj)
      refine ⟨_, rfl, ?_⟩
      intro v hv
      obtain rfl := Option.some.inj hv
      refine ⟨if i = 0 then 50 else 90, rfl, ?_, ?_⟩ <;> split <;> omega)
    rfl candA50 (List.mem_cons_self candA50 [candB90])
